import Mathlib

/-!
Shallow embedding of `src/defensive_pandas_merge/merge_inspector.py`.

The source wraps a pandas merge with pre- and post-merge diagnostics.
We model:
* a pandas `DataFrame` as an ordered list of rows, each row an association
  list from column name to a nullable cell (`none` models NaN/null);
* Python floats as exact rationals (`ℚ`), with Python's `round(x, d)`
  modelled as decimal round-half-to-even on the rational value;
* the accumulating `self.report` dict as an insertion-ordered association
  list from `String` to a Python-value type `PyVal`, so that `dict.get`
  and Python truthiness (used by `_check_for_errors`) are modelled faithfully;
* exceptions (`ZeroDivisionError` during `_perform_checks`, pandas
  `MergeError` for an unrecognized `how`, and `MergeInspectorException`)
  as `Except` error values.

Key-column parameters are taken post-normalization (the constructor's
lines 38-49 normalize `on`/`left_on`/`right_on`, promoting a single name
to a one-element list); the embedding's `left_on`/`right_on` are those
normalized lists, and `how` is `merge_kwargs.get('how', 'inner')`.
-/

/-- A table cell: `none` models a null (NaN) entry.  Values are modelled as
integers; the inspector's logic only ever compares cells for equality and
tests them for nullness, so any infinite type with decidable equality is a
faithful carrier. -/
abbrev Cell := Option Int

/-- A row of a table: association list from column name to cell. -/
abbrev Row := List (String × Cell)

/-- Column access on a row (`df[col]` at row granularity).  A missing column
yields null; the inspector is only ever run with the key columns present. -/
def rowGet (r : Row) (c : String) : Cell :=
  match r.find? (fun p => decide (p.1 = c)) with
  | some p => p.2
  | none => none

/-- A pandas `DataFrame`: ordered column names and ordered rows. -/
structure DataFrame where
  cols : List String
  rows : List Row

/-- The key tuple of a row for key columns `ks` (`df[ks]` row projection):
its join identity. -/
def keyTuple (r : Row) (ks : List String) : List Cell :=
  ks.map (rowGet r)

/-- `df[ks].isnull().any(axis=1)` for one row: some key column is null. -/
def hasNullKey (r : Row) (ks : List String) : Bool :=
  (keyTuple r ks).any Option.isNone

/-- Python values as they occur in the report dict. -/
inductive PyVal where
  | pyBool : Bool → PyVal
  | pyInt : Int → PyVal
  | pyRat : ℚ → PyVal
  | pyNone : PyVal
  | pyList : List PyVal → PyVal
  | pyDict : List (String × PyVal) → PyVal

/-- Python truthiness of a value (`if self.report.get(error)`), which only
inspects the outer constructor: `False`/`0`/`0.0`/`None`/empty containers
are falsy. -/
def PyVal.truthy : PyVal → Bool
  | .pyBool b => b
  | .pyInt n => decide (n ≠ 0)
  | .pyRat q => decide (q ≠ 0)
  | .pyNone => false
  | .pyList l => !l.isEmpty
  | .pyDict l => !l.isEmpty

/-- Truthiness of a `dict.get` result: a missing key (`None`) is falsy. -/
def truthyOpt : Option PyVal → Bool
  | none => false
  | some v => v.truthy

/-- The report: `self.report`, a Python dict modelled as an insertion-ordered
association list. -/
abbrev Report := List (String × PyVal)

/-- `self.report.get(k)`: first entry with key `k`, if any. -/
def reportGet (rep : Report) (k : String) : Option PyVal :=
  match rep.find? (fun p => decide (p.1 = k)) with
  | some p => some p.2
  | none => none

/-- `self.report[k] = v`: replace the value in place if the key exists,
otherwise append the new entry (Python dicts preserve insertion order). -/
def reportSet (rep : Report) (k : String) (v : PyVal) : Report :=
  if rep.any (fun p => decide (p.1 = k)) then
    rep.map (fun p => if p.1 = k then (k, v) else p)
  else
    rep ++ [(k, v)]

/-- `self.report[k]` read back as an integer (the row-count fields written by
`_perform_checks` and `perform_merge`); other shapes are unreachable on the
keys this is used with. -/
def reportGetInt (rep : Report) (k : String) : Int :=
  match reportGet rep k with
  | some (.pyInt n) => n
  | _ => 0

/-- Round a rational to the nearest integer, ties to even: the model of
Python 3 `round` (the source's percentages are exact decimals or clean
ratios, for which float `round` agrees with exact half-even rounding). -/
def roundHalfEven (q : ℚ) : ℤ :=
  let f := ⌊q⌋
  if q - f < 1 / 2 then f
  else if q - f > 1 / 2 then f + 1
  else if f % 2 = 0 then f else f + 1

/-- `round(q, d)`: round to `d` decimal places. -/
def roundTo (d : ℕ) (q : ℚ) : ℚ :=
  (roundHalfEven (q * 10 ^ d) : ℚ) / 10 ^ d

/-- `round(q, 4)` (pre-merge percentages). -/
def round4 (q : ℚ) : ℚ := roundTo 4 q

/-- `round(q, 2)` (post-merge percentages). -/
def round2 (q : ℚ) : ℚ := roundTo 2 q

/-- Keep the first occurrence of each element, given the set `seen` of
elements already kept (helper for `dedupFirst`). -/
def dedupFirstAux {α : Type} [DecidableEq α] (seen : List α) : List α → List α
  | [] => []
  | a :: rest =>
    if a ∈ seen then dedupFirstAux seen rest
    else a :: dedupFirstAux (a :: seen) rest

/-- pandas `drop_duplicates()` (default `keep='first'`): keep the first
occurrence of each element, preserving order. -/
def dedupFirst {α : Type} [DecidableEq α] (l : List α) : List α :=
  dedupFirstAux [] l

/-- `df.dropna(subset=ks)` on the rows: drop rows with any null key. -/
def dropNullKeyRows (df : DataFrame) (ks : List String) : List Row :=
  df.rows.filter (fun r => !hasNullKey r ks)

/-- `rows[rows.duplicated(subset=ks, keep=False)]`: all rows whose key tuple
occurs more than once in `rows`. -/
def duplicatedRows (rows : List Row) (ks : List String) : List Row :=
  rows.filter (fun r =>
    decide (1 < rows.countP (fun r2 => decide (keyTuple r2 ks = keyTuple r ks))))

/-- `left_duplicates[ks].drop_duplicates()` (source lines 52-60): the distinct
duplicated key tuples of the null-filtered rows, in first-occurrence order. -/
def dupKeyTuples (df : DataFrame) (ks : List String) : List (List Cell) :=
  dedupFirst ((duplicatedRows (dropNullKeyRows df ks) ks).map (fun r => keyTuple r ks))

/-- `df_no_nulls[ks].drop_duplicates().shape[0]` (source lines 63-64): number
of distinct non-null key tuples. -/
def totalKeyCount (df : DataFrame) (ks : List String) : Nat :=
  (dedupFirst ((dropNullKeyRows df ks).map (fun r => keyTuple r ks))).length

/-- Duplicate-key percentage of one side (source lines 66-69), guarded:
`round((dup / total) * 100, 4) if total else 0`. -/
def dupKeyPct (df : DataFrame) (ks : List String) : ℚ :=
  if totalKeyCount df ks ≠ 0 then
    round4 (((dupKeyTuples df ks).length : ℚ) / (totalKeyCount df ks) * 100)
  else 0

/-- `df[df[ks].isnull().any(axis=1)]` (source lines 89-90): the rows of the
full table with a null in some key column. -/
def nullKeyRows (df : DataFrame) (ks : List String) : List Row :=
  df.rows.filter (fun r => hasNullKey r ks)

/-- Null-key percentage of one side (source lines 97-99); unguarded in the
source: when the table has 0 rows Python raises `ZeroDivisionError`, which
`performChecks` models separately. -/
def nullKeyPct (df : DataFrame) (ks : List String) : ℚ :=
  round4 (((nullKeyRows df ks).length : ℚ) / (df.rows.length) * 100)

/-- A cell rendered in a `to_dict('records')` record. -/
def cellToPy : Cell → PyVal
  | some n => .pyInt n
  | none => .pyNone

/-- A key tuple rendered as a `to_dict('records')` record for key columns
`ks`. -/
def keyRecord (ks : List String) (t : List Cell) : PyVal :=
  .pyDict ((ks.zip t).map (fun p => (p.1, cellToPy p.2)))

/-- The error thresholds; the constructor defaults a missing dict to these
values and every lookup site passes the same default, so a structure with
all four fields present is an exact model of
`self.error_thresholds.get(name, default)`. -/
structure Thresholds where
  duplicated_keys : ℚ
  null_keys : ℚ
  percentage_matched_keys : ℚ
  rows_duplicated : ℚ

/-- The default thresholds (source lines 19-24). -/
def defaultThresholds : Thresholds := ⟨0, 0, 100, 0⟩

/-- The report as `_perform_checks` (source lines 29-116) leaves it when it
completes: the eight entries in insertion order.  The duplicated-keys `cases`
are the first three distinct duplicated key tuples rendered as records; the
null-keys `cases` are the key columns of the first three null-key rows. -/
def performChecksReport (dfL dfR : DataFrame) (lk rk : List String)
    (th : Thresholds) : Report :=
  [ ("left_number_of_rows_before_merge", .pyInt dfL.rows.length),
    ("right_number_of_rows_before_merge", .pyInt dfR.rows.length),
    ("left_duplicated_keys_in_keys", .pyDict
      [ ("number", .pyInt (dupKeyTuples dfL lk).length),
        ("percentage", .pyRat (dupKeyPct dfL lk)),
        ("cases", .pyList (((dupKeyTuples dfL lk).take 3).map (keyRecord lk))) ]),
    ("right_duplicated_keys_in_keys", .pyDict
      [ ("number", .pyInt (dupKeyTuples dfR rk).length),
        ("percentage", .pyRat (dupKeyPct dfR rk)),
        ("cases", .pyList (((dupKeyTuples dfR rk).take 3).map (keyRecord rk))) ]),
    ("duplicated_keys_error", .pyBool
      (decide (dupKeyPct dfL lk > th.duplicated_keys) &&
       decide (dupKeyPct dfR rk > th.duplicated_keys))),
    ("left_null_keys_in_keys", .pyDict
      [ ("number", .pyInt (nullKeyRows dfL lk).length),
        ("percentage", .pyRat (nullKeyPct dfL lk)),
        ("cases", .pyList (((nullKeyRows dfL lk).take 3).map
          (fun r => keyRecord lk (keyTuple r lk)))) ]),
    ("right_null_keys_in_keys", .pyDict
      [ ("number", .pyInt (nullKeyRows dfR rk).length),
        ("percentage", .pyRat (nullKeyPct dfR rk)),
        ("cases", .pyList (((nullKeyRows dfR rk).take 3).map
          (fun r => keyRecord rk (keyTuple r rk)))) ]),
    ("null_keys_error", .pyBool
      (decide (nullKeyPct dfL lk > th.null_keys) ||
       decide (nullKeyPct dfR rk > th.null_keys))) ]

/-- `_perform_checks`.  Source line 97 divides the left null-key row count by
the left row count with no guard (unlike the guarded duplicate-key
percentages of lines 66-69), so a 0-row table makes Python raise
`ZeroDivisionError` out of the constructor (line 98 likewise for the right
side); the entries written before the raise are lost with the half-built
instance.  On success the report is `performChecksReport`. -/
def performChecks (dfL dfR : DataFrame) (lk rk : List String)
    (th : Thresholds) : Except Unit Report :=
  if dfL.rows.length = 0 ∨ dfR.rows.length = 0 then .error ()
  else .ok (performChecksReport dfL dfR lk rk th)

/-- A row of nulls over the given columns (the NaN padding pandas adds for
unmatched rows in a non-inner merge). -/
def nullRow (cols : List String) : Row :=
  cols.map (fun c => (c, (none : Cell)))

/-- Inner-merge rows: for each left row in order, all right rows whose key
tuple equals its key tuple (pandas matches NaN keys to NaN keys in `merge`).
The combined row carries the left cells then the right cells. -/
def mergeRowsInner (L R : DataFrame) (lk rk : List String) : List Row :=
  L.rows.flatMap (fun rl =>
    (R.rows.filter (fun rr => decide (keyTuple rr rk = keyTuple rl lk))).map
      (fun rr => rl ++ rr))

/-- Left-merge rows: every left row, padded with nulls when unmatched. -/
def mergeRowsLeft (L R : DataFrame) (lk rk : List String) : List Row :=
  L.rows.flatMap (fun rl =>
    let ms := R.rows.filter (fun rr => decide (keyTuple rr rk = keyTuple rl lk))
    if ms.isEmpty then [rl ++ nullRow R.cols] else ms.map (fun rr => rl ++ rr))

/-- Right-merge rows: every right row, padded with nulls when unmatched. -/
def mergeRowsRight (L R : DataFrame) (lk rk : List String) : List Row :=
  R.rows.flatMap (fun rr =>
    let ms := L.rows.filter (fun rl => decide (keyTuple rl lk = keyTuple rr rk))
    if ms.isEmpty then [nullRow L.cols ++ rr] else ms.map (fun rl => rl ++ rr))

/-- Outer-merge rows: the left-merge rows followed by the unmatched right
rows (row multiset of a pandas outer merge). -/
def mergeRowsOuter (L R : DataFrame) (lk rk : List String) : List Row :=
  mergeRowsLeft L R lk rk ++
    ((R.rows.filter (fun rr =>
        (L.rows.filter (fun rl => decide (keyTuple rl lk = keyTuple rr rk))).isEmpty)).map
      (fun rr => nullRow L.cols ++ rr))

/-- `df_left.merge(df_right, **merge_kwargs)` (source line 124): the external
collaborator.  An unrecognized `how` makes pandas raise before any analysis
runs; that collaborator failure is the `Except.error` case. -/
def mergeDF (L R : DataFrame) (lk rk : List String) (how : String) :
    Except Unit DataFrame :=
  if how = "inner" then .ok ⟨L.cols ++ R.cols, mergeRowsInner L R lk rk⟩
  else if how = "left" then .ok ⟨L.cols ++ R.cols, mergeRowsLeft L R lk rk⟩
  else if how = "right" then .ok ⟨L.cols ++ R.cols, mergeRowsRight L R lk rk⟩
  else if how = "outer" then .ok ⟨L.cols ++ R.cols, mergeRowsOuter L R lk rk⟩
  else .error ()

/-- The `MergeInspector` instance state after a successful `__init__`:
the two copied tables, the normalized key columns, the resolved `how`,
thresholds, error selectors, and the report built by `_perform_checks`. -/
structure Inspector where
  df_left : DataFrame
  df_right : DataFrame
  left_on : List String
  right_on : List String
  how : String
  error_thresholds : Thresholds
  raise_on_errors : List String
  report : Report

/-- `MergeInspector.__init__`: copy the inputs (value semantics model the
`df.copy()` calls), store the parameters, run `_perform_checks`.  A
`ZeroDivisionError` inside `_perform_checks` propagates out of the
constructor, so no instance is obtained. -/
def inspectorInit (dfL dfR : DataFrame) (lk rk : List String) (how : String)
    (th : Thresholds) (roe : List String) : Except Unit Inspector :=
  (performChecks dfL dfR lk rk th).map
    (fun rep => ⟨dfL, dfR, lk, rk, how, th, roe, rep⟩)

/-- `df[ks].drop_duplicates()` (source lines 142-143): each side's distinct
key tuples, with no null filtering, in first-occurrence order. -/
def distinctKeys (df : DataFrame) (ks : List String) : List (List Cell) :=
  dedupFirst (df.rows.map (fun r => keyTuple r ks))

/-- The `_merge` indicator column of the key merge. -/
inductive MergeTag where
  | mBoth : MergeTag
  | mLeftOnly : MergeTag
  | mRightOnly : MergeTag
deriving DecidableEq

/-- `left_keys.merge(right_keys, ..., how='outer', indicator=True)` (source
lines 146-152): both key-tuple lists are duplicate-free, so each left key
matches at most one right key; the result is every left key tagged `both` or
`left_only`, followed by the right keys absent from the left tagged
`right_only`. -/
def taggedKeys (dfL dfR : DataFrame) (lk rk : List String) :
    List (List Cell × MergeTag) :=
  ((distinctKeys dfL lk).map (fun k =>
      (k, if k ∈ distinctKeys dfR rk then MergeTag.mBoth else MergeTag.mLeftOnly)))
    ++ (((distinctKeys dfR rk).filter (fun k => decide (k ∉ distinctKeys dfL lk))).map
      (fun k => (k, MergeTag.mRightOnly)))

/-- `len(keys_merged)` (source line 154). -/
def totalUniqueKeys (dfL dfR : DataFrame) (lk rk : List String) : Nat :=
  (taggedKeys dfL dfR lk rk).length

/-- Count of key tuples tagged `both` (source lines 155-156). -/
def matchedKeysCount (dfL dfR : DataFrame) (lk rk : List String) : Nat :=
  ((taggedKeys dfL dfR lk rk).filter (fun p => decide (p.2 = MergeTag.mBoth))).length

/-- `percentage_matched_keys` (source line 157), with its zero guard. -/
def pctMatchedKeys (dfL dfR : DataFrame) (lk rk : List String) : ℚ :=
  if totalUniqueKeys dfL dfR lk rk ≠ 0 then
    round2 ((matchedKeysCount dfL dfR lk rk : ℚ) / (totalUniqueKeys dfL dfR lk rk) * 100)
  else 0

/-- `_expected_row_count` (source lines 213-228): estimate over the row
counts recorded in the report; `outer` and any unrecognized `how` both yield
`None`. -/
def expectedRowCount (how : String) (leftRows rightRows : Int) : Option Int :=
  if how = "inner" then some (min leftRows rightRows)
  else if how = "left" then some leftRows
  else if how = "right" then some rightRows
  else if how = "outer" then none
  else none

/-- The pair (`number_of_rows_duplicated`, `duplicated_rows_percentage`) of
source lines 184-190.  Python's `if expected_rows and ...` treats both
`None` and `0` as false, hence the `e ≠ 0` conjunct. -/
def rowsDuplicated (expected : Option Int) (actual : Int) : Int × ℚ :=
  match expected with
  | some e =>
    if e ≠ 0 ∧ actual > e then
      (actual - e, round2 (((actual - e : Int) : ℚ) / (e : ℚ) * 100))
    else (0, 0)
  | none => (0, 0)

/-- `_analyze_merge` (source lines 137-195): extends the report (which
already holds the pre-merge entries and `number_of_rows_after_merge`) with
the matched-key statistics and the row-duplication statistics. -/
def analyzeMerge (insp : Inspector) (rep : Report) : Report :=
  let dfL := insp.df_left
  let dfR := insp.df_right
  let lk := insp.left_on
  let rk := insp.right_on
  let pct := pctMatchedKeys dfL dfR lk rk
  let leftOnly := (taggedKeys dfL dfR lk rk).filter
    (fun p => decide (p.2 = MergeTag.mLeftOnly))
  let rightOnly := (taggedKeys dfL dfR lk rk).filter
    (fun p => decide (p.2 = MergeTag.mRightOnly))
  -- The source computes these at lines 184-187, after the matched-key
  -- entries below are written; none of those writes touches the three
  -- row-count fields read here, so the values are those of the incoming
  -- report and the reads are hoisted above the writes.
  let expected := expectedRowCount insp.how
    (reportGetInt rep "left_number_of_rows_before_merge")
    (reportGetInt rep "right_number_of_rows_before_merge")
  let nd := rowsDuplicated expected (reportGetInt rep "number_of_rows_after_merge")
  let rep := reportSet rep "number_of_matched_keys"
    (.pyInt (matchedKeysCount dfL dfR lk rk))
  let rep := reportSet rep "percentage_of_matched_keys" (.pyRat pct)
  let rep := reportSet rep "number_of_left_keys_without_match" (.pyDict
    [ ("number", .pyInt leftOnly.length),
      ("cases", .pyList ((leftOnly.take 3).map (fun p => keyRecord lk p.1))) ])
  let rep := reportSet rep "number_of_right_keys_without_match" (.pyDict
    [ ("number", .pyInt rightOnly.length),
      ("cases", .pyList ((rightOnly.take 3).map (fun p => keyRecord rk p.1))) ])
  let rep := reportSet rep "percentage_of_matched_keys_error"
    (.pyBool (decide (pct < insp.error_thresholds.percentage_matched_keys)))
  let rep := reportSet rep "matched_keys_error"
    (.pyBool (decide (pct < insp.error_thresholds.percentage_matched_keys)))
  let rep := reportSet rep "number_of_rows_duplicated" (.pyInt nd.1)
  let rep := reportSet rep "rows_duplicated_error"
    (.pyBool (decide (nd.2 > insp.error_thresholds.rows_duplicated)))
  rep

/-- `_check_for_errors` (source lines 197-211): the selectors whose report
lookup is truthy, in order; `none` when nothing triggered (no raise),
`some triggered` when the exception is raised.  The exception message lists
exactly the triggered selectors and stringifies the report, so the pair
(triggered, report) carried by the failure determines it; the string
formatting itself is not modelled. -/
def checkForErrors (rep : Report) (roe : List String) : Option (List String) :=
  let triggered := roe.filter (fun e => truthyOpt (reportGet rep e))
  if triggered.isEmpty then none else some triggered

/-- The two failure kinds `perform_merge` can surface: the structured
`MergeInspectorException` (carrying the triggered selectors of its message
and the report object), or a propagated collaborator (pandas) failure. -/
inductive MergeFailure where
  | inspection : List String → Report → MergeFailure
  | collaborator : MergeFailure

/-- The report as `perform_merge` leaves it once the merge succeeded:
`number_of_rows_after_merge` recorded, then `_analyze_merge` applied. -/
def postReport (insp : Inspector) (merged : DataFrame) : Report :=
  analyzeMerge insp
    (reportSet insp.report "number_of_rows_after_merge" (.pyInt merged.rows.length))

/-- `perform_merge` (source lines 118-135): execute the merge, record the
row count, analyze, check for selected errors; raise `MergeInspectorException`
when some selector is truthy, else return the merged table.  The final
report accompanies the result (in the source it lives on `self`). -/
def performMerge (insp : Inspector) : Except MergeFailure (DataFrame × Report) :=
  match mergeDF insp.df_left insp.df_right insp.left_on insp.right_on insp.how with
  | .error _ => .error .collaborator
  | .ok merged =>
    let rep := postReport insp merged
    match checkForErrors rep insp.raise_on_errors with
    | some triggered => .error (.inspection triggered rep)
    | none => .ok (merged, rep)

/-- Caller-visible object store for the frame-effect analysis: the
dataframes the caller owns, addressed by position.  `__init__` receives
references into this store; everything the inspector later does happens on
the copies it allocates. -/
abbrev Store := List DataFrame

/-- Dereference a store address. -/
def storeRead (s : Store) (i : Nat) : DataFrame :=
  s.getD i ⟨[], []⟩

/-- Allocate a fresh object holding `d`, returning its address. -/
def storeAlloc (s : Store) (d : DataFrame) : Store × Nat :=
  (s ++ [d], s.length)

/-- `MergeInspector.__init__` at store level: `df_left.copy()` and
`df_right.copy()` allocate fresh objects with the same contents (source
lines 16-17), and `_perform_checks` runs on the copies.  No operation the
source applies to a dataframe mutates its receiver (`dropna`, `duplicated`,
`drop_duplicates`, `isnull`, boolean indexing, `head`, `to_dict`, `merge`
all return new objects), and the source never assigns into a dataframe, so
no store cell is ever written. -/
def inspectorInitStore (s : Store) (li ri : Nat) (lk rk : List String)
    (how : String) (th : Thresholds) (roe : List String) :
    Store × Except Unit Inspector :=
  let sl := storeAlloc s (storeRead s li)
  let sr := storeAlloc sl.1 (storeRead sl.1 ri)
  (sr.1, inspectorInit (storeRead sr.1 sl.2) (storeRead sr.1 sr.2) lk rk how th roe)

/-- `perform_merge` at store level: it reads only the inspector's own copies
and writes only `self` attributes, so the caller's store is untouched. -/
def performMergeStore (s : Store) (insp : Inspector) :
    Store × Except MergeFailure (DataFrame × Report) :=
  (s, performMerge insp)

/-- Modelled from the spec: the count of distinct duplicated key tuples,
stated as the spec words it — among the distinct non-null key tuples of one
side, those that occur in more than one (null-filtered) row.  Used as the
independent comparison point for the source's
`duplicates -> project -> drop_duplicates -> count` pipeline. -/
def distinctDuplicatedKeyCount (df : DataFrame) (ks : List String) : Nat :=
  ((dedupFirst ((dropNullKeyRows df ks).map (fun r => keyTuple r ks))).filter
    (fun k => decide (1 < (dropNullKeyRows df ks).countP
      (fun r => decide (keyTuple r ks = k))))).length

/-- Modelled from the spec: the claimed row-duplication statistics — when
the expected count is known and the actual count strictly exceeds it, the
difference and its percentage of the expected count; otherwise both zero
(no `expected ≠ 0` proviso: the claim conditions only on the expected count
being known). -/
def rowsDuplicatedSpec (expected : Option Int) (actual : Int) : Int × ℚ :=
  match expected with
  | some e =>
    if actual > e then
      (actual - e, round2 (((actual - e : Int) : ℚ) / (e : ℚ) * 100))
    else (0, 0)
  | none => (0, 0)

/-- Sample table: key column `k` holding `[1, 1, null]` — a duplicated key
and one null key. -/
def dfA : DataFrame := ⟨["k"], [[("k", some 1)], [("k", some 1)], [("k", none)]]⟩

/-- Sample table: key column `k` holding `[1]` — clean. -/
def dfB : DataFrame := ⟨["k"], [[("k", some 1)]]⟩

/-- Sample table: key column `k` holding `[1, 1, 1, 2, 3]` — the spec's
`[A, A, A, B, C]` example with `A, B, C := 1, 2, 3`. -/
def dfABC : DataFrame :=
  ⟨["k"], [[("k", some 1)], [("k", some 1)], [("k", some 1)],
           [("k", some 2)], [("k", some 3)]]⟩

/-- Sample table: key column `k` holding `[1, 1, 2]` — one of two distinct
keys duplicated, so the duplicate-key percentage is exactly 50. -/
def dfD : DataFrame := ⟨["k"], [[("k", some 1)], [("k", some 1)], [("k", some 2)]]⟩

/-- Sample table with no rows. -/
def dfEmpty : DataFrame := ⟨["k"], []⟩

/-- Boundary thresholds: each equals the corresponding percentage that the
`dfD`-vs-`dfB` inner-merge scenario produces (50 duplicate, 0 null,
50 matched, 100 duplicated rows). -/
def thB : Thresholds := ⟨50, 0, 50, 100⟩

/-- A fully constructed inspector on `dfB` against itself, with no error
selectors. -/
def inspB : Inspector :=
  ⟨dfB, dfB, ["k"], ["k"], "inner", defaultThresholds, [],
    performChecksReport dfB dfB ["k"] ["k"] defaultThresholds⟩

/-- A fully constructed inspector joining `dfA` to `dfB`. -/
def inspAB : Inspector :=
  ⟨dfA, dfB, ["k"], ["k"], "inner", defaultThresholds, [],
    performChecksReport dfA dfB ["k"] ["k"] defaultThresholds⟩

/-- A fully constructed inspector joining `dfD` to `dfB` with the boundary
thresholds. -/
def inspDB : Inspector :=
  ⟨dfD, dfB, ["k"], ["k"], "inner", thB, [],
    performChecksReport dfD dfB ["k"] ["k"] thB⟩

/-- The inner merge of `dfD` with `dfB` on `k`: the two `k = 1` rows each
match the single right row, the `k = 2` row matches nothing — 2 rows. -/
def mergedDB : DataFrame := ⟨["k", "k"], mergeRowsInner dfD dfB ["k"] ["k"]⟩

theorem duplicatedRows_map_keyTuple (rows : List Row) (ks : List String) :
    (duplicatedRows rows ks).map (fun r => keyTuple r ks) =
      (rows.map (fun r => keyTuple r ks)).filter
        (fun k => decide (1 < rows.countP (fun r2 => decide (keyTuple r2 ks = k)))) := by
  unfold duplicatedRows
  rw [List.filter_map]
  rfl

theorem dedupFirstAux_filter {α : Type} [DecidableEq α] (p : α → Bool) (l : List α) :
    ∀ s1 s2 : List α, (∀ x, p x = true → (x ∈ s1 ↔ x ∈ s2)) →
      dedupFirstAux s1 (l.filter p) = (dedupFirstAux s2 l).filter p := by
  induction l with
  | nil => intro s1 s2 _; rfl
  | cons a l ih =>
    intro s1 s2 h
    by_cases hp : p a = true
    · rw [List.filter_cons_of_pos hp]
      simp only [dedupFirstAux]
      by_cases hm : a ∈ s1
      · rw [if_pos hm, if_pos ((h a hp).mp hm)]
        exact ih s1 s2 h
      · rw [if_neg hm, if_neg (fun c => hm ((h a hp).mpr c))]
        rw [List.filter_cons_of_pos hp]
        rw [ih (a :: s1) (a :: s2) (fun x hx => by
          simp only [List.mem_cons]
          exact or_congr Iff.rfl (h x hx))]
    · have hp' : p a = false := Bool.not_eq_true _ ▸ hp
      rw [List.filter_cons_of_neg (by simp [hp'])]
      simp only [dedupFirstAux]
      by_cases hm : a ∈ s2
      · rw [if_pos hm]
        exact ih s1 s2 h
      · rw [if_neg hm, List.filter_cons_of_neg (by simp [hp'])]
        refine ih s1 (a :: s2) (fun x hx => ?_)
        have hxa : x ≠ a := fun hc => by rw [hc] at hx; rw [hp'] at hx; cases hx
        simp only [List.mem_cons]
        rw [h x hx]
        exact (or_iff_right hxa).symm

theorem dedupFirst_filter {α : Type} [DecidableEq α] (p : α → Bool) (l : List α) :
    dedupFirst (l.filter p) = (dedupFirst l).filter p :=
  dedupFirstAux_filter p l [] [] (by simp)

/-- The source's duplicate pipeline (all duplicated rows, project the keys,
`drop_duplicates`, count) counts exactly the distinct duplicated key tuples
of the null-filtered side. -/
theorem dupKeyTuples_length_eq (df : DataFrame) (ks : List String) :
    (dupKeyTuples df ks).length = distinctDuplicatedKeyCount df ks := by
  unfold dupKeyTuples distinctDuplicatedKeyCount
  rw [duplicatedRows_map_keyTuple, dedupFirst_filter]

theorem matchedKeysCount_eq (dfL dfR : DataFrame) (lk rk : List String) :
    matchedKeysCount dfL dfR lk rk =
      ((distinctKeys dfL lk).filter (fun k => decide (k ∈ distinctKeys dfR rk))).length := by
  unfold matchedKeysCount taggedKeys
  rw [List.filter_append]
  have h2 : (((distinctKeys dfR rk).filter
      (fun k => decide (k ∉ distinctKeys dfL lk))).map
        (fun k => (k, MergeTag.mRightOnly))).filter
          (fun p => decide (p.2 = MergeTag.mBoth)) = [] := by
    refine List.filter_eq_nil_iff.mpr (fun a ha => ?_)
    rcases List.mem_map.mp ha with ⟨k, _, rfl⟩
    simp
  rw [h2, List.append_nil, List.filter_map, List.length_map]
  congr 1
  refine List.filter_congr (fun k _ => ?_)
  by_cases hk : k ∈ distinctKeys dfR rk <;> simp [hk]

theorem totalUniqueKeys_eq (dfL dfR : DataFrame) (lk rk : List String) :
    totalUniqueKeys dfL dfR lk rk =
      (distinctKeys dfL lk).length +
        ((distinctKeys dfR rk).filter (fun k => decide (k ∉ distinctKeys dfL lk))).length := by
  unfold totalUniqueKeys taggedKeys
  simp

theorem performChecks_ok {dfL dfR : DataFrame} {lk rk : List String}
    {th : Thresholds} {rep : Report}
    (h : performChecks dfL dfR lk rk th = .ok rep) :
    dfL.rows.length ≠ 0 ∧ dfR.rows.length ≠ 0 ∧
      rep = performChecksReport dfL dfR lk rk th := by
  unfold performChecks at h
  split at h
  · cases h
  · rename_i hcond
    injection h with h'
    exact ⟨fun hl => hcond (Or.inl hl), fun hr => hcond (Or.inr hr), h'.symm⟩

theorem inspectorInit_ok {dfL dfR : DataFrame} {lk rk : List String}
    {how : String} {th : Thresholds} {roe : List String} {insp : Inspector}
    (h : inspectorInit dfL dfR lk rk how th roe = .ok insp) :
    dfL.rows.length ≠ 0 ∧ dfR.rows.length ≠ 0 ∧
      insp = ⟨dfL, dfR, lk, rk, how, th, roe, performChecksReport dfL dfR lk rk th⟩ := by
  unfold inspectorInit at h
  cases hc : performChecks dfL dfR lk rk th with
  | error e => rw [hc] at h; cases h
  | ok rep =>
    rw [hc] at h
    obtain ⟨h1, h2, h3⟩ := performChecks_ok hc
    simp only [Except.map] at h
    injection h with h'
    exact ⟨h1, h2, by rw [← h', h3]⟩

theorem rowsDuplicated_eq_spec_of_ne {e : Int} (he : e ≠ 0) (actual : Int) :
    rowsDuplicated (some e) actual = rowsDuplicatedSpec (some e) actual := by
  simp only [rowsDuplicated, rowsDuplicatedSpec]
  by_cases hgt : actual > e
  · rw [if_pos ⟨he, hgt⟩, if_pos hgt]
  · rw [if_neg (fun hc => hgt hc.2), if_neg hgt]

/-- On any state a successful `__init__` can produce (both sides have at
least one row), the `expected_rows` estimate is never the integer 0, so
Python's `if expected_rows and ...` truthiness test agrees with the claim's
"expected count is known" condition. -/
theorem rowsDuplicated_eq_spec (how : String) {l r : Int}
    (hl : 1 ≤ l) (hr : 1 ≤ r) (actual : Int) :
    rowsDuplicated (expectedRowCount how l r) actual =
      rowsDuplicatedSpec (expectedRowCount how l r) actual := by
  unfold expectedRowCount
  split_ifs
  · exact rowsDuplicated_eq_spec_of_ne (by rw [ne_eq, min_eq_iff]; omega) actual
  · exact rowsDuplicated_eq_spec_of_ne (by omega) actual
  · exact rowsDuplicated_eq_spec_of_ne (by omega) actual
  · rfl
  · rfl

/-- C2: the claim states that constructing the inspector with one side an
empty table (0 rows) succeeds and records a duplicate-key percentage of 0.
The duplicate-key percentage is indeed guarded (0, third conjunct), but
`_perform_checks` then divides the null-key row count by the 0 row count
with no guard (source line 97), so the constructor raises
`ZeroDivisionError` and no inspector is obtained: the code contradicts the
spec's division-by-zero guarantee on this input. -/
theorem empty_side_construction_raises :
    performChecks dfEmpty dfB ["k"] ["k"] defaultThresholds = Except.error () ∧
    inspectorInit dfEmpty dfB ["k"] ["k"] "inner" defaultThresholds [] = Except.error () ∧
    dupKeyPct dfEmpty ["k"] = 0 :=
  ⟨rfl, rfl, rfl⟩

/-- C3: after a successful `_perform_checks`, `duplicated_keys_error` is
truthy exactly when BOTH sides' duplicate-key percentages strictly exceed
the `duplicated_keys` threshold, while `null_keys_error` is truthy exactly
when AT LEAST ONE side's null-key percentage strictly exceeds the
`null_keys` threshold. -/
theorem duplicated_keys_and_null_keys_flag_semantics
    (dfL dfR : DataFrame) (lk rk : List String) (th : Thresholds) (rep : Report)
    (h : performChecks dfL dfR lk rk th = Except.ok rep) :
    (truthyOpt (reportGet rep "duplicated_keys_error") = true ↔
      (dupKeyPct dfL lk > th.duplicated_keys ∧ dupKeyPct dfR rk > th.duplicated_keys)) ∧
    (truthyOpt (reportGet rep "null_keys_error") = true ↔
      (nullKeyPct dfL lk > th.null_keys ∨ nullKeyPct dfR rk > th.null_keys)) := by
  obtain ⟨-, -, hrep⟩ := performChecks_ok h
  subst hrep
  constructor
  · rw [show reportGet (performChecksReport dfL dfR lk rk th) "duplicated_keys_error" =
        some (.pyBool (decide (dupKeyPct dfL lk > th.duplicated_keys) &&
          decide (dupKeyPct dfR rk > th.duplicated_keys))) from rfl]
    simp [truthyOpt, PyVal.truthy]
  · rw [show reportGet (performChecksReport dfL dfR lk rk th) "null_keys_error" =
        some (.pyBool (decide (nullKeyPct dfL lk > th.null_keys) ||
          decide (nullKeyPct dfR rk > th.null_keys))) from rfl]
    simp [truthyOpt, PyVal.truthy]

/-- Witness for C3 at the asymmetry scenario: left side `[1, 1, null]` has
duplicate-key percentage 100 and null-key percentage 33.3333 (both above
the default thresholds of 0), right side `[1]` has both percentages 0.
Only the left side exceeds either threshold, so `duplicated_keys_error`
(AND) stays false while `null_keys_error` (OR) fires. -/
theorem duplicated_keys_and_null_keys_flag_semantics_witness :
    performChecks dfA dfB ["k"] ["k"] defaultThresholds =
      Except.ok (performChecksReport dfA dfB ["k"] ["k"] defaultThresholds) ∧
    dupKeyPct dfA ["k"] > 0 ∧ nullKeyPct dfB ["k"] = 0 ∧
    truthyOpt (reportGet (performChecksReport dfA dfB ["k"] ["k"] defaultThresholds)
      "duplicated_keys_error") = false ∧
    truthyOpt (reportGet (performChecksReport dfA dfB ["k"] ["k"] defaultThresholds)
      "null_keys_error") = true := by
  have hsem := duplicated_keys_and_null_keys_flag_semantics dfA dfB ["k"] ["k"]
    defaultThresholds (performChecksReport dfA dfB ["k"] ["k"] defaultThresholds) rfl
  have hB0 : dupKeyPct dfB ["k"] = 0 := by
    have h1 : dupKeyTuples dfB ["k"] = [] := rfl
    have h2 : totalKeyCount dfB ["k"] = 1 := rfl
    simp only [dupKeyPct, h1, h2]
    norm_num [round4, roundTo, roundHalfEven]
  have hA : dupKeyPct dfA ["k"] = 100 := by
    have h1 : dupKeyTuples dfA ["k"] = [[some 1]] := rfl
    have h2 : totalKeyCount dfA ["k"] = 1 := rfl
    simp only [dupKeyPct, h1, h2]
    norm_num [round4, roundTo, roundHalfEven]
  have hAn : nullKeyPct dfA ["k"] = 333333 / 10000 := by
    have h1 : nullKeyRows dfA ["k"] = [[("k", none)]] := rfl
    have h2 : dfA.rows.length = 3 := rfl
    simp only [nullKeyPct, h1, h2]
    norm_num [round4, roundTo, roundHalfEven]
  have hBn : nullKeyPct dfB ["k"] = 0 := by
    have h1 : nullKeyRows dfB ["k"] = [] := rfl
    have h2 : dfB.rows.length = 1 := rfl
    simp only [nullKeyPct, h1, h2]
    norm_num [round4, roundTo, roundHalfEven]
  refine ⟨rfl, by rw [hA]; norm_num, hBn, ?_, ?_⟩
  · refine Bool.eq_false_iff.mpr (fun ht => ?_)
    have := hsem.1.mp ht
    rw [hB0] at this
    exact absurd this.2 (by norm_num [defaultThresholds])
  · refine hsem.2.mpr (Or.inl ?_)
    rw [hAn]
    norm_num [defaultThresholds]

/-- C6: the per-side duplicate-key diagnostic counts distinct duplicated key
tuples of the null-filtered side (not duplicated rows), and its percentage
divides that count by the count of distinct non-null key tuples. -/
theorem duplicate_diag_counts_distinct_tuples
    (dfL dfR : DataFrame) (lk rk : List String) (th : Thresholds) (rep : Report)
    (h : performChecks dfL dfR lk rk th = Except.ok rep) :
    (∀ (df : DataFrame) (ks : List String),
      (dupKeyTuples df ks).length = distinctDuplicatedKeyCount df ks) ∧
    reportGet rep "left_duplicated_keys_in_keys" = some (.pyDict
      [ ("number", .pyInt (distinctDuplicatedKeyCount dfL lk)),
        ("percentage", .pyRat (if totalKeyCount dfL lk ≠ 0 then
            round4 ((distinctDuplicatedKeyCount dfL lk : ℚ) / (totalKeyCount dfL lk) * 100)
          else 0)),
        ("cases", .pyList (((dupKeyTuples dfL lk).take 3).map (keyRecord lk))) ]) ∧
    reportGet rep "right_duplicated_keys_in_keys" = some (.pyDict
      [ ("number", .pyInt (distinctDuplicatedKeyCount dfR rk)),
        ("percentage", .pyRat (if totalKeyCount dfR rk ≠ 0 then
            round4 ((distinctDuplicatedKeyCount dfR rk : ℚ) / (totalKeyCount dfR rk) * 100)
          else 0)),
        ("cases", .pyList (((dupKeyTuples dfR rk).take 3).map (keyRecord rk))) ]) := by
  obtain ⟨-, -, hrep⟩ := performChecks_ok h
  subst hrep
  refine ⟨fun df ks => dupKeyTuples_length_eq df ks, ?_, ?_⟩
  · rw [show reportGet (performChecksReport dfL dfR lk rk th) "left_duplicated_keys_in_keys" =
        some (.pyDict
          [ ("number", .pyInt (dupKeyTuples dfL lk).length),
            ("percentage", .pyRat (dupKeyPct dfL lk)),
            ("cases", .pyList (((dupKeyTuples dfL lk).take 3).map (keyRecord lk))) ]) from rfl]
    simp only [dupKeyPct, dupKeyTuples_length_eq]
  · rw [show reportGet (performChecksReport dfL dfR lk rk th) "right_duplicated_keys_in_keys" =
        some (.pyDict
          [ ("number", .pyInt (dupKeyTuples dfR rk).length),
            ("percentage", .pyRat (dupKeyPct dfR rk)),
            ("cases", .pyList (((dupKeyTuples dfR rk).take 3).map (keyRecord rk))) ]) from rfl]
    simp only [dupKeyPct, dupKeyTuples_length_eq]

/-- Witness for C6 at the spec's `[A, A, A, B, C]` example: the recorded
distinct-duplicate count is 1 (only the key `1`), not 3. -/
theorem duplicate_diag_counts_distinct_tuples_witness :
    distinctDuplicatedKeyCount dfABC ["k"] = 1 ∧
    (dupKeyTuples dfABC ["k"]).length = 1 ∧
    reportGet (performChecksReport dfABC dfB ["k"] ["k"] defaultThresholds)
      "left_duplicated_keys_in_keys" = some (.pyDict
      [ ("number", .pyInt (distinctDuplicatedKeyCount dfABC ["k"])),
        ("percentage", .pyRat (if totalKeyCount dfABC ["k"] ≠ 0 then
            round4 ((distinctDuplicatedKeyCount dfABC ["k"] : ℚ) /
              (totalKeyCount dfABC ["k"]) * 100)
          else 0)),
        ("cases", .pyList (((dupKeyTuples dfABC ["k"]).take 3).map (keyRecord ["k"]))) ]) := by
  have h := duplicate_diag_counts_distinct_tuples dfABC dfB ["k"] ["k"] defaultThresholds
    (performChecksReport dfABC dfB ["k"] ["k"] defaultThresholds) rfl
  exact ⟨rfl, rfl, h.2.1⟩


theorem find?_map_set (rep : Report) (k : String) (v : PyVal) :
    (rep.map (fun p => if p.1 = k then (k, v) else p)).find?
      (fun p => decide (p.1 = k)) =
      ((rep.find? (fun p => decide (p.1 = k))).map (fun _ => (k, v))) := by
  induction rep with
  | nil => rfl
  | cons a t ih =>
    simp only [List.map_cons]
    by_cases ha : a.1 = k
    · rw [if_pos ha, List.find?_cons_of_pos _ (by simp),
        List.find?_cons_of_pos _ (by simpa using ha)]
      rfl
    · rw [if_neg ha, List.find?_cons_of_neg _ (by simpa using ha),
        List.find?_cons_of_neg _ (by simpa using ha)]
      exact ih

@[simp] theorem reportGet_set_self (rep : Report) (k : String) (v : PyVal) :
    reportGet (reportSet rep k v) k = some v := by
  unfold reportSet
  by_cases h : rep.any (fun p => decide (p.1 = k)) = true
  · rw [if_pos h]
    unfold reportGet
    rw [find?_map_set rep k v]
    cases hf : rep.find? (fun p => decide (p.1 = k)) with
    | none =>
      rcases List.any_eq_true.mp h with ⟨x, hx, hpx⟩
      exact absurd hpx (List.find?_eq_none.mp hf x hx)
    | some w => rfl
  · rw [if_neg h]
    unfold reportGet
    rw [List.find?_append]
    have h0 : rep.find? (fun p => decide (p.1 = k)) = none :=
      List.find?_eq_none.mpr (fun x hx hpx => h (List.any_eq_true.mpr ⟨x, hx, hpx⟩))
    rw [h0]
    simp [List.find?]

theorem find?_map_ne (rep : Report) {k k2 : String} (h : k ≠ k2) (v : PyVal) :
    (rep.map (fun p => if p.1 = k2 then (k2, v) else p)).find?
      (fun p => decide (p.1 = k)) = rep.find? (fun p => decide (p.1 = k)) := by
  induction rep with
  | nil => rfl
  | cons a t ih =>
    simp only [List.map_cons]
    by_cases ha : a.1 = k2
    · rw [if_pos ha,
        List.find?_cons_of_neg _ (by simpa using Ne.symm h),
        List.find?_cons_of_neg _ (by simpa [ha] using Ne.symm h)]
      exact ih
    · rw [if_neg ha]
      by_cases hak : a.1 = k
      · rw [List.find?_cons_of_pos _ (by simpa using hak),
          List.find?_cons_of_pos _ (by simpa using hak)]
      · rw [List.find?_cons_of_neg _ (by simpa using hak),
          List.find?_cons_of_neg _ (by simpa using hak)]
        exact ih

@[simp] theorem reportGet_set_ne (rep : Report) {k k2 : String} (h : k ≠ k2) (v : PyVal) :
    reportGet (reportSet rep k2 v) k = reportGet rep k := by
  unfold reportSet
  by_cases hc : rep.any (fun p => decide (p.1 = k2)) = true
  · rw [if_pos hc]
    unfold reportGet
    rw [find?_map_ne rep h v]
  · rw [if_neg hc]
    unfold reportGet
    rw [List.find?_append]
    cases hf : rep.find? (fun p => decide (p.1 = k)) with
    | some p => rfl
    | none =>
      rw [List.find?_cons_of_neg _ (by simpa using Ne.symm h)]
      rfl

theorem postReport_get_pmk_error (insp : Inspector) (merged : DataFrame) :
    reportGet (postReport insp merged) "percentage_of_matched_keys_error" =
      some (.pyBool (decide (pctMatchedKeys insp.df_left insp.df_right
        insp.left_on insp.right_on < insp.error_thresholds.percentage_matched_keys))) := by
  simp [postReport, analyzeMerge, reportGet_set_ne, reportGet_set_self]

theorem postReport_get_matched_alias (insp : Inspector) (merged : DataFrame) :
    reportGet (postReport insp merged) "matched_keys_error" =
      some (.pyBool (decide (pctMatchedKeys insp.df_left insp.df_right
        insp.left_on insp.right_on < insp.error_thresholds.percentage_matched_keys))) := by
  simp [postReport, analyzeMerge]

theorem postReport_get_pct (insp : Inspector) (merged : DataFrame) :
    reportGet (postReport insp merged) "percentage_of_matched_keys" =
      some (.pyRat (pctMatchedKeys insp.df_left insp.df_right
        insp.left_on insp.right_on)) := by
  simp [postReport, analyzeMerge]

theorem postReport_get_num_matched (insp : Inspector) (merged : DataFrame) :
    reportGet (postReport insp merged) "number_of_matched_keys" =
      some (.pyInt (matchedKeysCount insp.df_left insp.df_right
        insp.left_on insp.right_on)) := by
  simp [postReport, analyzeMerge]

theorem postReport_get_rows_dup_num (insp : Inspector) (merged : DataFrame) :
    reportGet (postReport insp merged) "number_of_rows_duplicated" =
      some (.pyInt (rowsDuplicated (expectedRowCount insp.how
          (reportGetInt insp.report "left_number_of_rows_before_merge")
          (reportGetInt insp.report "right_number_of_rows_before_merge"))
        (merged.rows.length : Int)).1) := by
  simp [postReport, analyzeMerge, reportGetInt]

theorem postReport_get_rows_dup_err (insp : Inspector) (merged : DataFrame) :
    reportGet (postReport insp merged) "rows_duplicated_error" =
      some (.pyBool (decide ((rowsDuplicated (expectedRowCount insp.how
          (reportGetInt insp.report "left_number_of_rows_before_merge")
          (reportGetInt insp.report "right_number_of_rows_before_merge"))
        (merged.rows.length : Int)).2 > insp.error_thresholds.rows_duplicated))) := by
  simp [postReport, analyzeMerge, reportGetInt]

/-- C8: after the post-merge analysis, `percentage_of_matched_keys_error` is
truthy exactly when the matched-key percentage is strictly below the
`percentage_matched_keys` threshold, and `matched_keys_error` carries the
identical value. -/
theorem matched_keys_error_alias
    (dfL dfR : DataFrame) (lk rk : List String) (how : String) (th : Thresholds)
    (roe : List String) (insp : Inspector) (merged : DataFrame)
    (hinit : inspectorInit dfL dfR lk rk how th roe = Except.ok insp) :
    reportGet (postReport insp merged) "percentage_of_matched_keys_error" =
      some (.pyBool (decide (pctMatchedKeys dfL dfR lk rk < th.percentage_matched_keys))) ∧
    reportGet (postReport insp merged) "matched_keys_error" =
      reportGet (postReport insp merged) "percentage_of_matched_keys_error" ∧
    (truthyOpt (reportGet (postReport insp merged) "matched_keys_error") = true ↔
      pctMatchedKeys dfL dfR lk rk < th.percentage_matched_keys) := by
  obtain ⟨-, -, hi⟩ := inspectorInit_ok hinit
  subst hi
  refine ⟨postReport_get_pmk_error _ merged, ?_, ?_⟩
  · rw [postReport_get_matched_alias _ merged, postReport_get_pmk_error _ merged]
  · rw [postReport_get_matched_alias _ merged]
    simp [truthyOpt, PyVal.truthy]

/-- Witness for C8 on the `dfB`-with-itself inspector. -/
theorem matched_keys_error_alias_witness :
    reportGet (postReport inspB dfB) "percentage_of_matched_keys_error" =
      some (.pyBool (decide (pctMatchedKeys dfB dfB ["k"] ["k"] <
        defaultThresholds.percentage_matched_keys))) ∧
    reportGet (postReport inspB dfB) "matched_keys_error" =
      reportGet (postReport inspB dfB) "percentage_of_matched_keys_error" ∧
    (truthyOpt (reportGet (postReport inspB dfB) "matched_keys_error") = true ↔
      pctMatchedKeys dfB dfB ["k"] ["k"] < defaultThresholds.percentage_matched_keys) :=
  matched_keys_error_alias dfB dfB ["k"] ["k"] "inner" defaultThresholds [] inspB dfB rfl

/-- C5: the matched-key analysis uses each side's distinct key tuples with
no null filtering, tags them left-only / right-only / both via the outer key
merge, and records `percentage_of_matched_keys` as matched over total tagged
tuples, times 100, rounded to 2 decimals, with 0 recorded when there are no
tagged tuples. -/
theorem percentage_of_matched_keys_computation
    (dfL dfR : DataFrame) (lk rk : List String) (how : String) (th : Thresholds)
    (roe : List String) (insp : Inspector) (merged : DataFrame)
    (hinit : inspectorInit dfL dfR lk rk how th roe = Except.ok insp) :
    matchedKeysCount dfL dfR lk rk =
      ((distinctKeys dfL lk).filter (fun k => decide (k ∈ distinctKeys dfR rk))).length ∧
    totalUniqueKeys dfL dfR lk rk =
      (distinctKeys dfL lk).length +
        ((distinctKeys dfR rk).filter (fun k => decide (k ∉ distinctKeys dfL lk))).length ∧
    reportGet (postReport insp merged) "percentage_of_matched_keys" =
      some (.pyRat (if totalUniqueKeys dfL dfR lk rk ≠ 0 then
        round2 ((matchedKeysCount dfL dfR lk rk : ℚ) /
          (totalUniqueKeys dfL dfR lk rk) * 100)
      else 0)) ∧
    reportGet (postReport insp merged) "number_of_matched_keys" =
      some (.pyInt (matchedKeysCount dfL dfR lk rk)) := by
  obtain ⟨-, -, hi⟩ := inspectorInit_ok hinit
  subst hi
  refine ⟨matchedKeysCount_eq dfL dfR lk rk, totalUniqueKeys_eq dfL dfR lk rk, ?_, ?_⟩
  · rw [postReport_get_pct]
    exact congrArg (fun q => some (PyVal.pyRat q)) rfl
  · rw [postReport_get_num_matched]

/-- Witness for C5 on `dfA` (whose key column contains a null) joined to
`dfB`: the null key tuple is part of the left distinct key set — no null
filtering happens here. -/
theorem percentage_of_matched_keys_computation_witness :
    distinctKeys dfA ["k"] = [[some 1], [none]] ∧
    (matchedKeysCount dfA dfB ["k"] ["k"] =
      ((distinctKeys dfA ["k"]).filter
        (fun k => decide (k ∈ distinctKeys dfB ["k"]))).length ∧
    totalUniqueKeys dfA dfB ["k"] ["k"] =
      (distinctKeys dfA ["k"]).length +
        ((distinctKeys dfB ["k"]).filter
          (fun k => decide (k ∉ distinctKeys dfA ["k"]))).length ∧
    reportGet (postReport inspAB dfB) "percentage_of_matched_keys" =
      some (.pyRat (if totalUniqueKeys dfA dfB ["k"] ["k"] ≠ 0 then
        round2 ((matchedKeysCount dfA dfB ["k"] ["k"] : ℚ) /
          (totalUniqueKeys dfA dfB ["k"] ["k"]) * 100)
      else 0)) ∧
    reportGet (postReport inspAB dfB) "number_of_matched_keys" =
      some (.pyInt (matchedKeysCount dfA dfB ["k"] ["k"]))) :=
  ⟨rfl, percentage_of_matched_keys_computation dfA dfB ["k"] ["k"] "inner"
    defaultThresholds [] inspAB dfB rfl⟩

/-- C4: on a successfully constructed inspector, the expected row count is
`min` of the row counts for `inner`, the left count for `left`, the right
count for `right`, and undefined for `outer` or any unrecognized `how`;
when it is known and the post-merge count strictly exceeds it,
`number_of_rows_duplicated` is actual minus expected and the percentage is
their ratio times 100 rounded to 2 decimals, otherwise both are 0; and
`rows_duplicated_error` is truthy exactly when that percentage strictly
exceeds the `rows_duplicated` threshold. -/
theorem rows_duplicated_computation
    (dfL dfR : DataFrame) (lk rk : List String) (how : String) (th : Thresholds)
    (roe : List String) (insp : Inspector) (merged : DataFrame)
    (hinit : inspectorInit dfL dfR lk rk how th roe = Except.ok insp)
    (hm : mergeDF dfL dfR lk rk how = Except.ok merged) :
    (∀ l r : Int,
      expectedRowCount "inner" l r = some (min l r) ∧
      expectedRowCount "left" l r = some l ∧
      expectedRowCount "right" l r = some r ∧
      ∀ h2 : String, ¬(h2 = "inner" ∨ h2 = "left" ∨ h2 = "right") →
        expectedRowCount h2 l r = none) ∧
    reportGet (postReport insp merged) "number_of_rows_duplicated" =
      some (.pyInt (rowsDuplicatedSpec
        (expectedRowCount how (dfL.rows.length : Int) (dfR.rows.length : Int))
        (merged.rows.length : Int)).1) ∧
    (truthyOpt (reportGet (postReport insp merged) "rows_duplicated_error") = true ↔
      (rowsDuplicatedSpec
        (expectedRowCount how (dfL.rows.length : Int) (dfR.rows.length : Int))
        (merged.rows.length : Int)).2 > th.rows_duplicated) := by
  obtain ⟨h1, h2, hi⟩ := inspectorInit_ok hinit
  subst hi
  have hl : (1 : Int) ≤ (dfL.rows.length : Int) := by
    exact_mod_cast Nat.one_le_iff_ne_zero.mpr h1
  have hr : (1 : Int) ≤ (dfR.rows.length : Int) := by
    exact_mod_cast Nat.one_le_iff_ne_zero.mpr h2
  have hgl : reportGetInt (performChecksReport dfL dfR lk rk th)
      "left_number_of_rows_before_merge" = (dfL.rows.length : Int) := rfl
  have hgr : reportGetInt (performChecksReport dfL dfR lk rk th)
      "right_number_of_rows_before_merge" = (dfR.rows.length : Int) := rfl
  refine ⟨?_, ?_, ?_⟩
  · intro l r
    refine ⟨rfl, rfl, rfl, fun h2 hn => ?_⟩
    simp only [expectedRowCount,
      if_neg (fun c => hn (Or.inl c)),
      if_neg (fun c => hn (Or.inr (Or.inl c))),
      if_neg (fun c => hn (Or.inr (Or.inr c)))]
    by_cases ho : h2 = "outer" <;> simp [ho]
  · rw [postReport_get_rows_dup_num]
    simp only [hgl, hgr]
    rw [rowsDuplicated_eq_spec how hl hr]
  · rw [postReport_get_rows_dup_err]
    simp only [hgl, hgr]
    rw [rowsDuplicated_eq_spec how hl hr]
    simp [truthyOpt, PyVal.truthy]

/-- Witness for C4 on the inner merge of `dfD` (3 rows, keys `[1,1,2]`)
with `dfB` (1 row, key `[1]`): the merge yields 2 rows, the expected count
is `min(3,1) = 1`, so 1 duplicated row at 100 percent. -/
theorem rows_duplicated_computation_witness :
    mergedDB.rows.length = 2 ∧
    (rowsDuplicatedSpec (expectedRowCount "inner" 3 1) 2).1 = 1 ∧
    reportGet (postReport inspDB mergedDB) "number_of_rows_duplicated" =
      some (.pyInt (rowsDuplicatedSpec
        (expectedRowCount "inner" (dfD.rows.length : Int) (dfB.rows.length : Int))
        (mergedDB.rows.length : Int)).1) ∧
    (truthyOpt (reportGet (postReport inspDB mergedDB) "rows_duplicated_error") = true ↔
      (rowsDuplicatedSpec
        (expectedRowCount "inner" (dfD.rows.length : Int) (dfB.rows.length : Int))
        (mergedDB.rows.length : Int)).2 > thB.rows_duplicated) := by
  have h := rows_duplicated_computation dfD dfB ["k"] ["k"] "inner" thB [] inspDB
    mergedDB rfl rfl
  refine ⟨rfl, ?_, h.2.1, h.2.2⟩
  norm_num [rowsDuplicatedSpec, expectedRowCount]

/-- C7: all four threshold checks compare strictly, so a computed
percentage equal to (or below) its configured threshold never sets the
corresponding error flag — for the AND-combined duplicate check one side
at or below the threshold already suffices. -/
theorem strict_threshold_boundaries
    (dfL dfR : DataFrame) (lk rk : List String) (how : String) (th : Thresholds)
    (roe : List String) (insp : Inspector) (merged : DataFrame)
    (hinit : inspectorInit dfL dfR lk rk how th roe = Except.ok insp)
    (hd : dupKeyPct dfL lk ≤ th.duplicated_keys)
    (hn1 : nullKeyPct dfL lk ≤ th.null_keys)
    (hn2 : nullKeyPct dfR rk ≤ th.null_keys)
    (hp : th.percentage_matched_keys ≤ pctMatchedKeys dfL dfR lk rk)
    (hrd : (rowsDuplicatedSpec
        (expectedRowCount how (dfL.rows.length : Int) (dfR.rows.length : Int))
        (merged.rows.length : Int)).2 ≤ th.rows_duplicated) :
    truthyOpt (reportGet insp.report "duplicated_keys_error") = false ∧
    truthyOpt (reportGet insp.report "null_keys_error") = false ∧
    truthyOpt (reportGet (postReport insp merged)
      "percentage_of_matched_keys_error") = false ∧
    truthyOpt (reportGet (postReport insp merged) "rows_duplicated_error") = false := by
  obtain ⟨h1, h2, hi⟩ := inspectorInit_ok hinit
  subst hi
  refine ⟨?_, ?_, ?_, ?_⟩
  · rw [show reportGet (performChecksReport dfL dfR lk rk th) "duplicated_keys_error" =
        some (.pyBool (decide (dupKeyPct dfL lk > th.duplicated_keys) &&
          decide (dupKeyPct dfR rk > th.duplicated_keys))) from rfl]
    simp [truthyOpt, PyVal.truthy, not_lt.mpr hd]
  · rw [show reportGet (performChecksReport dfL dfR lk rk th) "null_keys_error" =
        some (.pyBool (decide (nullKeyPct dfL lk > th.null_keys) ||
          decide (nullKeyPct dfR rk > th.null_keys))) from rfl]
    simp [truthyOpt, PyVal.truthy, not_lt.mpr hn1, not_lt.mpr hn2]
  · rw [postReport_get_pmk_error]
    simp [truthyOpt, PyVal.truthy, not_lt.mpr hp]
  · rw [postReport_get_rows_dup_err]
    have hgl : reportGetInt (performChecksReport dfL dfR lk rk th)
        "left_number_of_rows_before_merge" = (dfL.rows.length : Int) := rfl
    have hgr : reportGetInt (performChecksReport dfL dfR lk rk th)
        "right_number_of_rows_before_merge" = (dfR.rows.length : Int) := rfl
    have hl : (1 : Int) ≤ (dfL.rows.length : Int) := by
      exact_mod_cast Nat.one_le_iff_ne_zero.mpr h1
    have hr : (1 : Int) ≤ (dfR.rows.length : Int) := by
      exact_mod_cast Nat.one_le_iff_ne_zero.mpr h2
    simp only [hgl, hgr]
    rw [rowsDuplicated_eq_spec how hl hr]
    simp [truthyOpt, PyVal.truthy, not_lt.mpr hrd]

/-- Witness for C7 at an all-boundary scenario: joining `dfD` (keys
`[1,1,2]`) to `dfB` (key `[1]`) with `how='inner'` produces a duplicate-key
percentage of exactly 50, null-key percentages of exactly 0, a matched-key
percentage of exactly 50 and a duplicated-rows percentage of exactly 100 —
each equal to its `thB` threshold — and none of the four flags fires. -/
theorem strict_threshold_boundaries_witness :
    dupKeyPct dfD ["k"] = thB.duplicated_keys ∧
    pctMatchedKeys dfD dfB ["k"] ["k"] = thB.percentage_matched_keys ∧
    (rowsDuplicatedSpec (expectedRowCount "inner" (dfD.rows.length : Int)
      (dfB.rows.length : Int)) (mergedDB.rows.length : Int)).2 = thB.rows_duplicated ∧
    (truthyOpt (reportGet inspDB.report "duplicated_keys_error") = false ∧
     truthyOpt (reportGet inspDB.report "null_keys_error") = false ∧
     truthyOpt (reportGet (postReport inspDB mergedDB)
       "percentage_of_matched_keys_error") = false ∧
     truthyOpt (reportGet (postReport inspDB mergedDB)
       "rows_duplicated_error") = false) := by
  have e1 : dupKeyPct dfD ["k"] = 50 := by
    have h1 : dupKeyTuples dfD ["k"] = [[some 1]] := rfl
    have h2 : totalKeyCount dfD ["k"] = 2 := rfl
    simp only [dupKeyPct, h1, h2]
    norm_num [round4, roundTo, roundHalfEven]
  have e2 : nullKeyPct dfD ["k"] = 0 := by
    have h1 : nullKeyRows dfD ["k"] = [] := rfl
    have h2 : dfD.rows.length = 3 := rfl
    simp only [nullKeyPct, h1, h2]
    norm_num [round4, roundTo, roundHalfEven]
  have e3 : nullKeyPct dfB ["k"] = 0 := by
    have h1 : nullKeyRows dfB ["k"] = [] := rfl
    have h2 : dfB.rows.length = 1 := rfl
    simp only [nullKeyPct, h1, h2]
    norm_num [round4, roundTo, roundHalfEven]
  have e4 : pctMatchedKeys dfD dfB ["k"] ["k"] = 50 := by
    have h1 : matchedKeysCount dfD dfB ["k"] ["k"] = 1 := rfl
    have h2 : totalUniqueKeys dfD dfB ["k"] ["k"] = 2 := rfl
    simp only [pctMatchedKeys, h1, h2]
    norm_num [round2, roundTo, roundHalfEven]
  have e5 : (rowsDuplicatedSpec (expectedRowCount "inner" (dfD.rows.length : Int)
      (dfB.rows.length : Int)) (mergedDB.rows.length : Int)).2 = 100 := by
    have h1 : dfD.rows.length = 3 := rfl
    have h2 : dfB.rows.length = 1 := rfl
    have h3 : mergedDB.rows.length = 2 := rfl
    rw [h1, h2, h3]
    norm_num [rowsDuplicatedSpec, expectedRowCount, round2, roundTo, roundHalfEven]
  have hc := strict_threshold_boundaries dfD dfB ["k"] ["k"] "inner" thB [] inspDB
    mergedDB rfl
    (by rw [e1]; norm_num [thB]) (by rw [e2]; norm_num [thB])
    (by rw [e3]; norm_num [thB]) (by rw [e4]; norm_num [thB])
    (by rw [e5]; norm_num [thB])
  exact ⟨by rw [e1]; norm_num [thB], by rw [e4]; norm_num [thB],
    by rw [e5]; norm_num [thB], hc⟩

theorem checkForErrors_none_iff (rep : Report) (roe : List String) :
    checkForErrors rep roe = none ↔
      ∀ e ∈ roe, truthyOpt (reportGet rep e) = false := by
  simp only [checkForErrors]
  split_ifs with h
  · simp only [List.isEmpty_iff, List.filter_eq_nil_iff] at h
    exact iff_of_true rfl (fun e he => Bool.eq_false_iff.mpr (h e he))
  · refine iff_of_false (by simp) (fun hall => h ?_)
    simp only [List.isEmpty_iff, List.filter_eq_nil_iff]
    intro e he hw
    rw [hall e he] at hw
    cases hw

theorem checkForErrors_some_exists {rep : Report} {roe t : List String}
    (h : checkForErrors rep roe = some t) :
    ∃ e ∈ roe, truthyOpt (reportGet rep e) = true := by
  by_contra hall
  push_neg at hall
  have hnone : checkForErrors rep roe = none :=
    (checkForErrors_none_iff rep roe).mpr
      (fun e he => Bool.eq_false_iff.mpr (hall e he))
  rw [hnone] at h
  cases h

/-- C1: `perform_merge` raises the structured `MergeInspectorException` if
and only if some caller-supplied selector looks up a truthy field of the
(post-analysis) report; a caller who passes no selectors never receives
this failure kind, and when no selected field is truthy the complete joined
table is returned. -/
theorem raise_iff_selected_truthy (insp : Inspector) :
    (∀ merged : DataFrame,
      mergeDF insp.df_left insp.df_right insp.left_on insp.right_on insp.how =
        Except.ok merged →
      (((∃ t rep, performMerge insp = Except.error (.inspection t rep)) ↔
        ∃ e ∈ insp.raise_on_errors,
          truthyOpt (reportGet (postReport insp merged) e) = true) ∧
       ((∀ e ∈ insp.raise_on_errors,
          truthyOpt (reportGet (postReport insp merged) e) = false) →
        performMerge insp = Except.ok (merged, postReport insp merged)))) ∧
    (insp.raise_on_errors = [] →
      ∀ t rep, performMerge insp ≠ Except.error (.inspection t rep)) := by
  constructor
  · intro merged hm
    constructor
    · constructor
      · rintro ⟨t, rep, hpm⟩
        unfold performMerge at hpm
        rw [hm] at hpm
        cases hce : checkForErrors (postReport insp merged) insp.raise_on_errors with
        | none => simp only [hce] at hpm; cases hpm
        | some t2 => exact checkForErrors_some_exists hce
      · rintro ⟨e, he, ht⟩
        cases hce : checkForErrors (postReport insp merged) insp.raise_on_errors with
        | none =>
          have hf := (checkForErrors_none_iff _ _).mp hce e he
          rw [ht] at hf
          cases hf
        | some t2 =>
          refine ⟨t2, postReport insp merged, ?_⟩
          unfold performMerge
          rw [hm]
          simp only [hce]
    · intro hall
      cases hce : checkForErrors (postReport insp merged) insp.raise_on_errors with
      | some t2 =>
        rcases checkForErrors_some_exists hce with ⟨e, he, ht⟩
        rw [hall e he] at ht
        cases ht
      | none =>
        unfold performMerge
        rw [hm]
        simp only [hce]
  · intro hroe t rep hpm
    unfold performMerge at hpm
    cases hmm : mergeDF insp.df_left insp.df_right insp.left_on insp.right_on insp.how with
    | error u => rw [hmm] at hpm; simp at hpm
    | ok merged =>
      rw [hmm, hroe] at hpm
      simp only [show ∀ rep2 : Report, checkForErrors rep2 [] = none from fun _ => rfl]
        at hpm
      cases hpm

/-- Witness for C1: the inspector `inspB` passes no error selectors, so
`perform_merge` cannot fail with the structured exception and returns the
complete inner-joined table together with the analyzed report. -/
theorem raise_iff_selected_truthy_witness :
    (∀ t rep, performMerge inspB ≠ Except.error (.inspection t rep)) ∧
    performMerge inspB = Except.ok (⟨["k", "k"], mergeRowsInner dfB dfB ["k"] ["k"]⟩,
      postReport inspB ⟨["k", "k"], mergeRowsInner dfB dfB ["k"] ["k"]⟩) := by
  have h := raise_iff_selected_truthy inspB
  refine ⟨h.2 rfl, ?_⟩
  refine (h.1 ⟨["k", "k"], mergeRowsInner dfB dfB ["k"] ["k"]⟩ rfl).2 ?_
  intro e he
  exact absurd he (List.not_mem_nil e)

theorem storeRead_append_lt (s : Store) (x : DataFrame) (j : Nat)
    (hj : j < s.length) : storeRead (s ++ [x]) j = storeRead s j := by
  unfold storeRead
  rw [List.getD_eq_getElem?_getD, List.getD_eq_getElem?_getD,
    List.getElem?_append_left hj]

theorem storeRead_append_self (s : Store) (x : DataFrame) :
    storeRead (s ++ [x]) s.length = x := by
  unfold storeRead
  rw [List.getD_eq_getElem?_getD, List.getElem?_append_right (le_refl _)]
  simp

/-- C9: the constructor allocates copies of the caller's two tables and the
inspector thereafter works on the copies: after construction every
caller-visible store cell is unchanged, the inspector built is exactly the
one built from the values the caller's cells held, and `perform_merge`
leaves the caller's store untouched. -/
theorem caller_tables_never_mutated
    (s : Store) (li ri : Nat) (lk rk : List String) (how : String)
    (th : Thresholds) (roe : List String)
    (hli : li < s.length) (hri : ri < s.length) :
    (∀ j, j < s.length →
      storeRead (inspectorInitStore s li ri lk rk how th roe).1 j = storeRead s j) ∧
    (inspectorInitStore s li ri lk rk how th roe).2 =
      inspectorInit (storeRead s li) (storeRead s ri) lk rk how th roe ∧
    ∀ insp : Inspector, (performMergeStore s insp).1 = s := by
  refine ⟨fun j hj => ?_, ?_, fun insp => rfl⟩
  · simp only [inspectorInitStore, storeAlloc]
    rw [storeRead_append_lt _ _ _ (by simp [hli]; omega),
      storeRead_append_lt _ _ _ hj]
  · simp only [inspectorInitStore, storeAlloc]
    rw [storeRead_append_lt s (storeRead s li) ri hri]
    rw [storeRead_append_lt (s ++ [storeRead s li]) (storeRead s ri) s.length
      (by simp)]
    rw [storeRead_append_self, storeRead_append_self]

/-- Witness for C9 on a one-cell store. -/
theorem caller_tables_never_mutated_witness :
    (∀ j, j < ([dfB] : Store).length →
      storeRead (inspectorInitStore [dfB] 0 0 ["k"] ["k"] "inner"
        defaultThresholds []).1 j = storeRead [dfB] j) ∧
    (inspectorInitStore [dfB] 0 0 ["k"] ["k"] "inner" defaultThresholds []).2 =
      inspectorInit (storeRead [dfB] 0) (storeRead [dfB] 0) ["k"] ["k"] "inner"
        defaultThresholds [] ∧
    ∀ insp : Inspector, (performMergeStore [dfB] insp).1 = [dfB] :=
  caller_tables_never_mutated [dfB] 0 0 ["k"] ["k"] "inner" defaultThresholds []
    (by decide) (by decide)

/-- C10: a selector name that is not a key of the report is silently
ignored: its lookup is falsy, so it can neither trigger the failure nor
change which selectors are reported, and a selector list holding only such
names never raises. -/
theorem unknown_selector_ignored
    (rep : Report) (roe : List String) (name : String)
    (h : reportGet rep name = none) :
    checkForErrors rep (name :: roe) = checkForErrors rep roe ∧
    checkForErrors rep [name] = none := by
  have ht : truthyOpt (reportGet rep name) = false := by rw [h]; rfl
  constructor
  · simp only [checkForErrors, List.filter_cons, ht]
    rfl
  · simp only [checkForErrors, List.filter_cons, ht, List.filter_nil]
    rfl

/-- Witness for C10: the misspelled selector `rows_duplicated_eror` is not
a key of the report `_perform_checks` builds, so it is ignored. -/
theorem unknown_selector_ignored_witness :
    checkForErrors (performChecksReport dfA dfB ["k"] ["k"] defaultThresholds)
      ("rows_duplicated_eror" :: ["null_keys_error"]) =
      checkForErrors (performChecksReport dfA dfB ["k"] ["k"] defaultThresholds)
        ["null_keys_error"] ∧
    checkForErrors (performChecksReport dfA dfB ["k"] ["k"] defaultThresholds)
      ["rows_duplicated_eror"] = none :=
  unknown_selector_ignored (performChecksReport dfA dfB ["k"] ["k"] defaultThresholds)
    ["null_keys_error"] "rows_duplicated_eror" rfl
